import Mathlib
set_option maxRecDepth 8000

/-!
Verification of the emotion-tagged quote recommendation utility
(merge scripts, training scripts and the trained API server).

The Python sources are shallowly embedded: dataframes become lists of
records, dataframe filters become `List.filter`, the keyword classifier
becomes a first-match search over an ordered association list, and the
HTTP handler becomes a pure function from the parsed request body to a
response value.  String operations (`lower`, substring test via `in`,
`split`, `strip`) are implemented structurally over the character list
of a `String` so that every definition evaluates inside the kernel.
-/

/-- Lowercase one character, as Python `str.lower` does for ASCII. -/
def lowerChar (c : Char) : Char := c.toLower

/-- Lowercase a string (Python `str.lower`). -/
def lowerStr (s : String) : String := String.mk (s.data.map lowerChar)

/-- Boolean test that `pat` is a prefix of `l`. -/
def isPrefixList (pat l : List Char) : Bool :=
  match pat, l with
  | [], _ => true
  | _ :: _, [] => false
  | a :: as, b :: bs => a == b && isPrefixList as bs

/-- Boolean test that `pat` occurs contiguously inside `l`. -/
def isInfixList (pat l : List Char) : Bool :=
  match l with
  | [] => pat.isEmpty
  | _ :: bs => isPrefixList pat l || isInfixList pat bs

/-- Python `pat in hay` on strings: substring containment. -/
def strContains (hay pat : String) : Bool := isInfixList pat.data hay.data

/-- Number of maximal non-whitespace runs in a character list; this is
Python `len(text.split())`.  The flag records whether the previous
character was inside a word. -/
def countTokens (inWord : Bool) (l : List Char) : Nat :=
  match l with
  | [] => 0
  | c :: cs =>
    if c.isWhitespace then countTokens false cs
    else if inWord then countTokens true cs
    else countTokens true cs + 1

/-- Python `str.strip()`: drop leading and trailing whitespace. -/
def pyStrip (s : String) : String :=
  String.mk (((s.data.dropWhile Char.isWhitespace).reverse.dropWhile
    Char.isWhitespace).reverse)

/-- A fragment of the Python value universe, large enough to express the
dynamically-typed arguments that reach `assign_emotion` and the
dataframe cells: `none` is Python `None`, `nan` is a pandas missing
cell (a float NaN, which is truthy and prints as "nan"), `int` an
integer and `strList` a list of strings. -/
inductive PyVal where
  | none
  | nan
  | str (s : String)
  | int (n : Int)
  | strList (xs : List String)
deriving DecidableEq

/-- Python `str(v)` for the embedded values.  `str(None)` is `"None"`,
`str` of a list uses the quoted repr of its elements. -/
def pyStr (v : PyVal) : String :=
  match v with
  | PyVal.none => "None"
  | PyVal.nan => "nan"
  | PyVal.str s => s
  | PyVal.int n => toString n
  | PyVal.strList xs =>
      "[" ++ String.intercalate ", " (xs.map (fun s => "\x27" ++ s ++ "\x27")) ++ "]"

/-- Python truthiness of the embedded values. -/
def pyTruthy (v : PyVal) : Bool :=
  match v with
  | PyVal.none => false
  | PyVal.nan => true
  | PyVal.str s => s != ""
  | PyVal.int n => n != 0
  | PyVal.strList xs => !xs.isEmpty

/-- The EMOTION_KEYWORDS table shared verbatim by
merge_all_archive_quotes.py and merge_and_label_quotes.py, in its
declaration order. -/
def EMOTION_KEYWORDS : List (String × List String) := [
  ("grief", ["grief", "loss", "death", "died", "lost", "mourning", "bereavement",
    "sadness", "pain", "hurt", "broken", "alone", "lonely", "empty"]),
  ("depression", ["depressed", "sad", "hopeless", "despair", "tired", "exhausted",
    "broken", "hurt", "pain", "suffering", "dark", "empty", "numb"]),
  ("anxiety", ["anxious", "worry", "fear", "scared", "panic", "stress",
    "overwhelmed", "nervous", "restless"]),
  ("motivation", ["motivated", "motivate", "drive", "energy", "work", "career",
    "goal", "achieve", "success", "inspire", "dream", "aspire"]),
  ("resilience", ["failure", "fail", "challenge", "difficult", "hard", "struggle",
    "overcome", "persevere", "tough", "strength", "courage"]),
  ("mindfulness", ["mind", "think", "thought", "calm", "peace", "meditation",
    "present", "breathe", "breath"]),
  ("happiness", ["happy", "happiness", "joy", "cheer", "bright", "smile", "laugh",
    "delight", "pleasure"]),
  ("love", ["love", "heart", "relationship", "romance", "affection", "care",
    "cherish", "adore"]),
  ("wisdom", ["wisdom", "learn", "knowledge", "experience", "understand",
    "insight", "truth", "philosophy"]),
  ("hope", ["hope", "faith", "believe", "trust", "optimism", "positive", "future",
    "better", "light", "heal"])]

/-- One taxonomy entry matches when some keyword occurs in the lowered
text or in the lowered tags (the inner `for kw in keywords` loop of
`assign_emotion` with its `kw in text or kw in tags` test). -/
def entryMatches (e : String × List String) (t g : String) : Bool :=
  e.2.any (fun kw => strContains t kw || strContains g kw)

/-- Core of `assign_emotion` after both arguments have been lowered:
the first taxonomy entry, in declaration order, with a matching keyword
wins; if no entry matches the sentinel label "general" is returned. -/
def classifyLowered (t g : String) : String :=
  match EMOTION_KEYWORDS.find? (fun e => entryMatches e t g) with
  | some e => e.1
  | Option.none => "general"

/-- The `assign_emotion(text, tags=None)` helper of the two merge
scripts: `text = str(text).lower()`, `tags = str(tags).lower() if tags
else ZERO-STRING`, then the first-match scan over EMOTION_KEYWORDS. -/
def assign_emotion (text tags : PyVal) : String :=
  classifyLowered (lowerStr (pyStr text))
    (if pyTruthy tags then lowerStr (pyStr tags) else "")

/-- The emotion_keywords table of simple_training.py (also repeated in
train_quote_system.py), which extends the grief, depression and anxiety
rows of EMOTION_KEYWORDS with extra phrases. -/
def simpleEmotionKeywords : List (String × List String) := [
  ("grief", ["grief", "loss", "death", "died", "lost", "mourning", "bereavement",
    "sadness", "pain", "hurt", "broken", "curse", "silence", "alone", "lonely",
    "empty", "nothing feels real", "cannot breathe", "barely holding on"]),
  ("depression", ["depressed", "sad", "hopeless", "despair", "tired", "exhausted",
    "broken", "hurt", "pain", "suffering", "dark", "empty", "numb",
    "nothing matters", "why does it hurt", "exist", "did not ask for this"]),
  ("anxiety", ["anxious", "worry", "fear", "scared", "panic", "stress",
    "overwhelmed", "cannot breathe", "tight", "nervous", "restless", "scream"]),
  ("motivation", ["motivated", "motivate", "drive", "energy", "work", "career",
    "goal", "achieve", "success", "inspire", "dream", "aspire"]),
  ("resilience", ["failure", "fail", "challenge", "difficult", "hard", "struggle",
    "overcome", "persevere", "tough", "strength", "courage"]),
  ("mindfulness", ["mind", "think", "thought", "calm", "peace", "meditation",
    "present", "breathe", "breath"]),
  ("happiness", ["happy", "happiness", "joy", "cheer", "bright", "smile", "laugh",
    "delight", "pleasure"]),
  ("love", ["love", "heart", "relationship", "romance", "affection", "care",
    "cherish", "adore"]),
  ("wisdom", ["wisdom", "learn", "knowledge", "experience", "understand",
    "insight", "truth", "philosophy"]),
  ("hope", ["hope", "faith", "believe", "trust", "optimism", "positive", "future",
    "better", "light", "heal"])]

/-- The list of emotions matching a lowered quote text in the training
scripts: the `matched_emotions` accumulator of `train_simple_system`
and `create_training_data`. -/
def matchedEmotions (t : String) : List String :=
  simpleEmotionKeywords.filterMap
    (fun e => if e.2.any (fun kw => strContains t kw) then some e.1 else Option.none)

/-- Emotion assignment of simple_training.py: first matched emotion, or
the default label "wisdom" when no keyword matches. -/
def simpleAssignEmotion (quote : String) : String :=
  match matchedEmotions (lowerStr quote) with
  | m :: _ => m
  | [] => "wisdom"

/-- Emotion label built by `create_training_data` in
train_quote_system.py: first keyword-matched emotion; otherwise the
lowered emotion already stored on the record, unless that is "general",
in which case "wisdom". -/
def createTrainingLabel (text quoteEmotion : String) : String :=
  match matchedEmotions (lowerStr text) with
  | m :: _ => m
  | [] =>
    if lowerStr quoteEmotion != "general" then lowerStr quoteEmotion else "wisdom"

/-- The `word_count` helper (defined identically in
merge_all_archive_quotes.py and trained_api_server.py): 0 for a missing
or non-string cell, otherwise `len(text.split())`. -/
def word_count (cell : Option String) : Nat :=
  match cell with
  | Option.none => 0
  | some s => countTokens false s.data


/-- A normalized source record of the offline merge pass: the `quote`
cell may be missing (pandas NaN, dropped by `dropna`), `tags` may be a
missing cell as well. -/
structure SrcRow where
  quote : Option String
  author : String
  tags : Option String
deriving DecidableEq

/-- A corpus record after the merge pass has assigned an emotion. -/
structure CorpusRow where
  quote : Option String
  author : String
  tags : Option String
  emotion : String
deriving DecidableEq

/-- View of a dataframe cell as the Python value handed to
`assign_emotion`: a present cell is the string, a missing cell is NaN. -/
def cellPy (cell : Option String) : PyVal :=
  match cell with
  | some s => PyVal.str s
  | Option.none => PyVal.nan

/-- Worker for `drop_duplicates(subset=[KEY], keep=FIRST)`: walk the
rows in order, keeping a row only when its key has not been seen. -/
def dedupByGo {α κ : Type} [BEq κ] (key : α → κ) (seen : List κ) (l : List α) :
    List α :=
  match l with
  | [] => []
  | x :: xs =>
    if seen.contains (key x) then dedupByGo key seen xs
    else x :: dedupByGo key (key x :: seen) xs

/-- Pandas `drop_duplicates` on one key column, first occurrence wins. -/
def dedupBy {α κ : Type} [BEq κ] (key : α → κ) (l : List α) : List α :=
  dedupByGo key [] l

/-- Keep-condition of the archive-merge length filter:
`word_count(quote) <= 65` (merge_all_archive_quotes.py line 96). -/
def archiveLengthOk (r : SrcRow) : Bool := decide (word_count r.quote ≤ 65)

/-- The batch pipeline of merge_all_archive_quotes.py on the
concatenation of the per-source frames: drop rows with a missing quote
(each source frame is passed through `dropna(subset=[QUOTE])`), then
`drop_duplicates(subset=[QUOTE])`, then the 65-word length filter, then
assign an emotion from quote and tags. -/
def buildArchiveCorpus (rows : List SrcRow) : List CorpusRow :=
  let dropped := rows.filter (fun r => r.quote.isSome)
  let deduped := dedupBy (fun r => r.quote) dropped
  let lenOk := deduped.filter archiveLengthOk
  lenOk.map (fun r =>
    { quote := r.quote, author := r.author, tags := r.tags,
      emotion := assign_emotion (cellPy r.quote) (cellPy r.tags) })

/-- A row of the pickled quotes dataframe served by
trained_api_server.py.  `assignedEmotion` is the assigned_emotion
column written by simple_training.py; `emotion` is the fallback emotion
column. -/
structure Row where
  quote : String
  author : String
  assignedEmotion : String
  emotion : String
deriving DecidableEq

/-- The serving dataframe: its rows plus whether the assigned_emotion
column is present (the branch testing whether the assigned_emotion name is
among the dataframe columns). -/
structure DataFrame where
  hasAssignedCol : Bool
  rows : List Row
deriving DecidableEq

/-- A recommendation result dict (text, author, emotion, match_type);
the constant float similarity_score carried alongside in the source is
outside the integer embedding and not inspected by any claim. -/
structure RecQuote where
  text : String
  author : String
  emotion : String
  matchType : String
deriving DecidableEq

/-- The emotion column used by the `_get_emotion_based_quotes` filter:
assigned_emotion when that column exists, otherwise emotion. -/
def rowLabel (df : DataFrame) (r : Row) : String :=
  if df.hasAssignedCol then r.assignedEmotion else r.emotion

/-- Keep-condition of the serving-time length filter:
`word_count(quote) <= max_words` (trained_api_server.py line 338). -/
def servingLengthOk (maxWords : Nat) (r : Row) : Bool :=
  decide (word_count (some r.quote) ≤ maxWords)

/-- The `_filter_quotes_by_length` method; every call site uses the
default threshold of 50 words. -/
def filterQuotesByLength (rows : List Row) (maxWords : Nat) : List Row :=
  rows.filter (servingLengthOk maxWords)

/-- A linear congruential step standing in for the numpy generator
behind `random_state=42`.  Modelled from the spec: sampling is a
deterministic draw without replacement under a fixed seed; the exact
index sequence of numpy is irrelevant to every stated property. -/
def lcgNext (s : Nat) : Nat := (s * 1103515245 + 12345) % (2 ^ 31)

/-- Draw `k` rows without replacement: repeatedly pick a position from
the current state and remove it.  Modelled from the spec:
`DataFrame.sample(n=k, random_state=42)`. -/
def sampleGo {α : Type} (k s : Nat) (l : List α) : List α :=
  match k, l with
  | 0, _ => []
  | _ + 1, [] => []
  | k + 1, x :: xs =>
    let i := s % (x :: xs).length
    (x :: xs).get ⟨i, Nat.mod_lt s (Nat.succ_pos xs.length)⟩ ::
      sampleGo k (lcgNext s) ((x :: xs).eraseIdx i)

/-- The sampling step of `_get_emotion_based_quotes`: when at most
`top_k` candidates remain they are all returned as-is, otherwise
exactly `top_k` are drawn under the fixed seed 42. -/
def selectQuotes {α : Type} (candidates : List α) (k : Nat) : List α :=
  if candidates.length ≤ k then candidates else sampleGo k 42 candidates

/-- The `_get_emotion_based_quotes(emotion, top_k)` method: None
dataframe gives no results; filter rows whose stored label equals the
requested emotion case-insensitively; an empty match set returns the
empty list; survivors pass the 50-word length filter, are sampled down
to `top_k`, and are formatted as emotion_based results. -/
def getEmotionBasedQuotes (df? : Option DataFrame) (emotion : String) (k : Nat) :
    List RecQuote :=
  match df? with
  | Option.none => []
  | some df =>
    let emotionQuotes :=
      if df.hasAssignedCol then
        df.rows.filter (fun r => lowerStr r.assignedEmotion == lowerStr emotion)
      else
        df.rows.filter (fun r => lowerStr r.emotion == lowerStr emotion)
    if emotionQuotes.isEmpty then []
    else
      let lengthOk := filterQuotesByLength emotionQuotes 50
      let selected := selectQuotes lengthOk k
      selected.map (fun r =>
        { text := r.quote, author := r.author, emotion := emotion,
          matchType := "emotion_based" })


/-- Result of sentiment analysis as far as the route inspects it. -/
structure SentimentResult where
  primaryEmotion : String
  insight : String
deriving DecidableEq

/-- The `_fallback_sentiment_analysis` keyword cascade used when the
trained models are absent. -/
def fallbackSentimentAnalysis (userInput : String) : SentimentResult :=
  let l := lowerStr userInput
  let emotion :=
    if ["died", "death", "lost", "mom", "mother", "grief"].any
        (fun w => strContains l w) then "grief"
    else if ["sad", "depressed", "hopeless", "tired"].any
        (fun w => strContains l w) then "depression"
    else if ["anxious", "worry", "fear", "stress"].any
        (fun w => strContains l w) then "anxiety"
    else "general"
  { primaryEmotion := emotion,
    insight := "I understand what you\x27re going through. You\x27re not alone in this journey." }

/-- The serving engine state.  The pickled vectorizer and random-forest
classifier are opaque external artifacts; their predict step is an
abstract function from input text to a label, and the TF-IDF similarity
search `_get_similarity_quotes` built on them is likewise abstracted as
a function from input text and count to results. -/
structure Engine where
  isLoaded : Bool
  quotesDf : Option DataFrame
  predictEmotion : String → String
  similarityQuotes : String → Nat → List RecQuote

/-- The per-emotion insights dictionary of `analyze_sentiment`. -/
def insightsTable : List (String × String) := [
  ("grief", "I hear the depth of your pain and loss. Your feelings are valid, and it\x27s okay to not be okay. Grief has no timeline, and healing happens in its own way."),
  ("depression", "I can feel the weight of what you\x27re carrying. Depression can make everything feel dark and hopeless, but these feelings are temporary. You matter, and your pain is real."),
  ("anxiety", "I understand that anxiety can feel overwhelming and suffocating. Your fears are valid, and it\x27s okay to feel this way. Remember to breathe and take things one moment at a time."),
  ("motivation", "I can see you\x27re looking for motivation. Remember that passion drives success and every step forward counts."),
  ("resilience", "Challenges are opportunities for growth. Your strength lies in perseverance and your ability to overcome obstacles."),
  ("mindfulness", "Your thoughts shape your reality. Focus on what you can control and find peace in the present moment."),
  ("happiness", "Happiness is a choice you make every day. Choose joy and find beauty in the simple moments."),
  ("love", "Love is the most powerful force in the universe. It has the ability to heal, inspire, and transform lives."),
  ("wisdom", "Every experience offers wisdom. Learn from both successes and challenges to grow stronger."),
  ("hope", "Hope is the thing with feathers that perches in the soul. Even in the darkest times, it never completely disappears.")]

/-- The `analyze_sentiment` method: trained prediction when the models
are loaded (insight looked up with a default, Python `insights.get`),
keyword fallback otherwise (a loaded engine always has its classifier,
as `load_models` sets is_loaded only then). -/
def analyzeSentiment (e : Engine) (userInput : String) : SentimentResult :=
  if e.isLoaded then
    { primaryEmotion := e.predictEmotion userInput,
      insight := ((insightsTable.lookup (e.predictEmotion userInput)).getD
        "I understand what you\x27re going through. You\x27re not alone in this journey.") }
  else fallbackSentimentAnalysis userInput

/-- The hardcoded default list of `_fallback_recommendations`. -/
def defaultQuotes : List RecQuote := [
  { text := "The only way to do great work is to love what you do.",
    author := "Steve Jobs", emotion := "motivation", matchType := "fallback" },
  { text := "When we are no longer able to change a situation, we are challenged to change ourselves.",
    author := "Viktor E. Frankl", emotion := "wisdom", matchType := "fallback" }]

/-- The `_fallback_recommendations` method: `default_quotes[:top_k]`. -/
def fallbackRecommendations (k : Nat) : List RecQuote := defaultQuotes.take k

/-- The `get_recommendations` method of the engine: fallback list when
the models are not loaded; otherwise classify, collect emotion-based
quotes, pad with similarity results when short, and truncate to
`top_k`. -/
def engineGetRecommendations (e : Engine) (userInput : String) (k : Nat) :
    List RecQuote :=
  if e.isLoaded then
    let sa := analyzeSentiment e userInput
    let emotionQuotes := getEmotionBasedQuotes e.quotesDf sa.primaryEmotion k
    let extended :=
      if emotionQuotes.length < k then
        emotionQuotes ++ e.similarityQuotes userInput (k - emotionQuotes.length)
      else emotionQuotes
    extended.take k
  else fallbackRecommendations k

/-- Observable shape of the JSON reply of POST /recommendations:
status code, presence of an error field, the status string, the emotion
reported, and the recommendation list (Option.none when the handler
returned before any recommendation computation ran). -/
structure ApiResponse where
  code : Nat
  hasErrorField : Bool
  status : String
  emotionDetected : Option String
  recommended : Option (List RecQuote)
deriving DecidableEq

/-- The POST /recommendations route: a request without a JSON body
raises inside the try block and is converted to a 500 error; a present
body yields `user_input = data.get(TEXT, DEFAULT).strip()`, which when
empty returns 400 with an error field before any analysis; otherwise
the engine runs and a 200 success reply carries the recommendations. -/
def recommendationsRoute (e : Engine) (body : Option (Option String)) :
    ApiResponse :=
  match body with
  | Option.none =>
    { code := 500, hasErrorField := true, status := "error",
      emotionDetected := Option.none, recommended := Option.none }
  | some textField =>
    let userInput := pyStrip (textField.getD "")
    if userInput = "" then
      { code := 400, hasErrorField := true, status := "error",
        emotionDetected := Option.none, recommended := Option.none }
    else
      let sa := analyzeSentiment e userInput
      let recs := engineGetRecommendations e userInput 5
      { code := 200, hasErrorField := false, status := "success",
        emotionDetected := some sa.primaryEmotion, recommended := some recs }

/-- A not-loaded engine used by concrete witnesses. -/
def engineOffline : Engine :=
  { isLoaded := false, quotesDf := Option.none,
    predictEmotion := fun _ => "general", similarityQuotes := fun _ _ => [] }


/-- Fixture: a quote text of exactly n words. -/
def mkWords (n : Nat) : String := String.intercalate " " (List.replicate n "w")

/-- Fixture: two source rows sharing one quote text. -/
def rowsPair : List SrcRow :=
  [{ quote := some "only", author := "A", tags := some "" },
   { quote := some "only", author := "B", tags := some "" }]

theorem find_first {α : Type} (p : α → Bool) :
    ∀ (l : List α) (i : Nat) (hi : i < l.length),
      p (l.get ⟨i, hi⟩) = true →
      (∀ j (hj : j < i), p (l.get ⟨j, Nat.lt_trans hj hi⟩) = false) →
      l.find? p = some (l.get ⟨i, hi⟩) := by
  intro l
  induction l with
  | nil => intro i hi; exact absurd hi (Nat.not_lt_zero i)
  | cons x xs ih =>
    intro i hi hp hprev
    cases i with
    | zero =>
      exact List.find?_cons_of_pos xs hp
    | succ n =>
      have hx : p x = false := hprev 0 (Nat.succ_pos n)
      rw [List.find?_cons_of_neg xs (by simp [hx])]
      exact ih n (Nat.lt_of_succ_lt_succ hi) hp
        (fun j hj => hprev (j + 1) (Nat.succ_lt_succ hj))

theorem find_pointwise {α : Type} (p q : α → Bool) :
    ∀ (l : List α), (∀ a ∈ l, p a = q a) → l.find? p = l.find? q := by
  intro l
  induction l with
  | nil => intro _; rfl
  | cons x xs ih =>
    intro h
    have hx := h x (List.mem_cons_self x xs)
    cases hq : q x with
    | true =>
      rw [List.find?_cons_of_pos xs (hx.trans hq), List.find?_cons_of_pos xs hq]
    | false =>
      rw [List.find?_cons_of_neg xs (by simp [hx, hq]),
        List.find?_cons_of_neg xs (by simp [hq])]
      exact ih (fun a ha => h a (List.mem_cons_of_mem x ha))

theorem any_pointwise {α : Type} (p q : α → Bool) :
    ∀ (l : List α), (∀ a ∈ l, p a = q a) → l.any p = l.any q := by
  intro l
  induction l with
  | nil => intro _; rfl
  | cons x xs ih =>
    intro h
    simp only [List.any_cons, h x (List.mem_cons_self x xs),
      ih (fun a ha => h a (List.mem_cons_of_mem x ha))]

theorem tags_lower (g : String) :
    (if pyTruthy (PyVal.str g) then lowerStr (pyStr (PyVal.str g)) else "") =
      lowerStr g := by
  by_cases hg : g = ""
  · subst hg; rfl
  · have ht : pyTruthy (PyVal.str g) = true := by
      simp [pyTruthy, bne_iff_ne, hg]
    simp [ht, pyStr]

theorem dedupByGo_subset {α κ : Type} [BEq κ] (key : α → κ) :
    ∀ (l : List α) (seen : List κ) (x : α), x ∈ dedupByGo key seen l → x ∈ l := by
  intro l
  induction l with
  | nil => intro seen x h; simp [dedupByGo] at h
  | cons y ys ih =>
    intro seen x h
    rw [dedupByGo] at h
    by_cases hc : seen.contains (key y) = true
    · rw [if_pos hc] at h
      exact List.mem_cons_of_mem y (ih seen x h)
    · rw [if_neg hc] at h
      rcases List.mem_cons.1 h with h | h
      · exact h ▸ List.mem_cons_self y ys
      · exact List.mem_cons_of_mem y (ih (key y :: seen) x h)

theorem dedupByGo_unseen {α κ : Type} [BEq κ] [LawfulBEq κ] (key : α → κ) :
    ∀ (l : List α) (seen : List κ) (x : α),
      x ∈ dedupByGo key seen l → seen.contains (key x) = false := by
  intro l
  induction l with
  | nil => intro seen x h; simp [dedupByGo] at h
  | cons y ys ih =>
    intro seen x h
    rw [dedupByGo] at h
    by_cases hc : seen.contains (key y) = true
    · rw [if_pos hc] at h
      exact ih seen x h
    · rw [if_neg hc] at h
      rcases List.mem_cons.1 h with h | h
      · subst h
        exact Bool.eq_false_iff.2 hc
      · have := ih (key y :: seen) x h
        simp only [List.contains_cons, Bool.or_eq_false_iff] at this
        exact this.2

theorem dedupByGo_keys_nodup {α κ : Type} [BEq κ] [LawfulBEq κ] (key : α → κ) :
    ∀ (l : List α) (seen : List κ),
      ((dedupByGo key seen l).map key).Nodup := by
  intro l
  induction l with
  | nil => intro seen; simp [dedupByGo]
  | cons y ys ih =>
    intro seen
    rw [dedupByGo]
    by_cases hc : seen.contains (key y) = true
    · rw [if_pos hc]; exact ih seen
    · rw [if_neg hc]
      simp only [List.map_cons, List.nodup_cons]
      refine ⟨?_, ih (key y :: seen)⟩
      intro hmem
      rcases List.mem_map.1 hmem with ⟨z, hz, hkz⟩
      have h1 := dedupByGo_unseen key ys (key y :: seen) z hz
      simp only [List.contains_cons, Bool.or_eq_false_iff] at h1
      have h2 : (key z == key y) = true := beq_iff_eq.2 hkz
      rw [h2] at h1
      exact Bool.noConfusion h1.1

theorem dedupByGo_first {α κ : Type} [BEq κ] [LawfulBEq κ] (key : α → κ) :
    ∀ (l : List α) (seen : List κ) (x : α), x ∈ dedupByGo key seen l →
      l.find? (fun y => key y == key x) = some x := by
  intro l
  induction l with
  | nil => intro seen x h; simp [dedupByGo] at h
  | cons y ys ih =>
    intro seen x h
    rw [dedupByGo] at h
    by_cases hc : seen.contains (key y) = true
    · rw [if_pos hc] at h
      have hx : seen.contains (key x) = false := dedupByGo_unseen key ys seen x h
      have hne : (key y == key x) = false := by
        by_contra hcon
        have : key y = key x := beq_iff_eq.1 (Bool.not_eq_false _ ▸ hcon)
        rw [this] at hc
        rw [hc] at hx
        exact absurd hx (by simp)
      rw [List.find?_cons_of_neg ys (by simp [hne])]
      exact ih seen x h
    · rw [if_neg hc] at h
      rcases List.mem_cons.1 h with h | h
      · subst h
        apply List.find?_cons_of_pos
        simp
      · have hx := dedupByGo_unseen key ys (key y :: seen) x h
        simp only [List.contains_cons, Bool.or_eq_false_iff] at hx
        have hne : (key y == key x) = false := by
          by_contra hcon
          have heq : key y = key x := beq_iff_eq.1 (Bool.not_eq_false _ ▸ hcon)
          have : (key x == key y) = true := beq_iff_eq.2 heq.symm
          rw [this] at hx
          exact absurd hx.1 (by simp)
        rw [List.find?_cons_of_neg ys (by simp [hne])]
        exact ih (key y :: seen) x h

theorem dedupByGo_of_nodup {α κ : Type} [BEq κ] [LawfulBEq κ] (key : α → κ) :
    ∀ (l : List α) (seen : List κ),
      (∀ x ∈ l, seen.contains (key x) = false) → ((l.map key).Nodup) →
      dedupByGo key seen l = l := by
  intro l
  induction l with
  | nil => intro seen _ _; rfl
  | cons y ys ih =>
    intro seen hseen hnodup
    rw [dedupByGo, if_neg (by rw [hseen y (List.mem_cons_self y ys)]; simp)]
    simp only [List.map_cons, List.nodup_cons] at hnodup
    congr 1
    refine ih (key y :: seen) ?_ hnodup.2
    intro x hx
    simp only [List.contains_cons, Bool.or_eq_false_iff]
    refine ⟨?_, hseen x (List.mem_cons_of_mem y hx)⟩
    have : key x ≠ key y := by
      intro hcon
      exact hnodup.1 (hcon ▸ List.mem_map_of_mem key hx)
    simp [this]

theorem get_cons_eraseIdx_perm {α : Type} :
    ∀ (l : List α) (i : Nat) (h : i < l.length),
      List.Perm (l.get ⟨i, h⟩ :: l.eraseIdx i) l := by
  intro l
  induction l with
  | nil => intro i h; exact absurd h (Nat.not_lt_zero i)
  | cons x xs ih =>
    intro i h
    cases i with
    | zero => exact List.Perm.refl (x :: xs)
    | succ n =>
      have hn : n < xs.length := Nat.lt_of_succ_lt_succ h
      exact (List.Perm.swap x (xs.get ⟨n, hn⟩) (xs.eraseIdx n)).trans
        ((ih n hn).cons x)

theorem sampleGo_length {α : Type} :
    ∀ (k s : Nat) (l : List α), (sampleGo k s l).length = min k l.length := by
  intro k
  induction k with
  | zero => intro s l; simp [sampleGo]
  | succ k ih =>
    intro s l
    cases l with
    | nil => simp [sampleGo]
    | cons x xs =>
      have hi : s % (x :: xs).length < (x :: xs).length :=
        Nat.mod_lt s (Nat.succ_pos xs.length)
      rw [sampleGo]
      simp only [List.length_cons, ih]
      simp only [List.length_cons] at hi
      have hi2 : s % (xs.length + 1) < (x :: xs).length := hi
      rw [List.length_eraseIdx_of_lt hi2]
      simp only [List.length_cons]
      omega

theorem sampleGo_subperm {α : Type} :
    ∀ (k s : Nat) (l : List α), List.Subperm (sampleGo k s l) l := by
  intro k
  induction k with
  | zero => intro s l; exact List.nil_subperm
  | succ k ih =>
    intro s l
    cases l with
    | nil => exact List.nil_subperm
    | cons x xs =>
      have hi : s % (x :: xs).length < (x :: xs).length :=
        Nat.mod_lt s (Nat.succ_pos xs.length)
      rw [sampleGo]
      refine List.Subperm.trans ?_ (get_cons_eraseIdx_perm (x :: xs) _ hi).subperm
      exact (List.subperm_cons _).2 (ih (lcgNext s) _)

theorem kw_not_in_none :
    ∀ e ∈ EMOTION_KEYWORDS, ∀ kw ∈ e.2,
      strContains "none" kw = false ∧ strContains "" kw = false := by decide

theorem entry_none_eq (e : String × List String) (he : e ∈ EMOTION_KEYWORDS)
    (g : String) : entryMatches e "none" g = entryMatches e "" g := by
  unfold entryMatches
  apply any_pointwise
  intro kw hkw
  rcases kw_not_in_none e he kw hkw with ⟨h1, h2⟩
  rw [h1, h2]

theorem classifyLowered_none_eq (g : String) :
    classifyLowered "none" g = classifyLowered "" g := by
  unfold classifyLowered
  rw [find_pointwise _ _ EMOTION_KEYWORDS (fun e he => entry_none_eq e he g)]

/-- C1: classification is strictly first-match in taxonomy declaration
order with no scoring or ranking: whenever the entry at position i of
EMOTION_KEYWORDS matches the lowered text or tags and no earlier entry
matches, `assign_emotion` returns exactly the label of entry i — even
when later entries also match, so a text with keywords of two emotions
gets the earlier-declared label; within an entry every keyword produces
the same label, so the first matching keyword in declared order
decides. -/
theorem assign_emotion_first_match (s g : String) (i : Nat)
    (hi : i < EMOTION_KEYWORDS.length)
    (hmatch : entryMatches (EMOTION_KEYWORDS.get ⟨i, hi⟩)
      (lowerStr s) (lowerStr g) = true)
    (hbefore : ∀ j (hj : j < i),
      entryMatches (EMOTION_KEYWORDS.get ⟨j, Nat.lt_trans hj hi⟩)
        (lowerStr s) (lowerStr g) = false) :
    assign_emotion (PyVal.str s) (PyVal.str g) =
      (EMOTION_KEYWORDS.get ⟨i, hi⟩).1 := by
  unfold assign_emotion
  rw [tags_lower]
  show classifyLowered (lowerStr s) (lowerStr g) = _
  unfold classifyLowered
  rw [find_first (fun e => entryMatches e (lowerStr s) (lowerStr g))
    EMOTION_KEYWORDS i hi hmatch hbefore]

/-- Witness for C1: a text containing keywords of two emotions, smile
of happiness (entry 6) and heart of love (entry 7); the
earlier-declared happiness is returned. -/
theorem assign_emotion_first_match_witness :
    assign_emotion (PyVal.str "her smile and her heart") (PyVal.str "") =
      "happiness" := by
  have h := assign_emotion_first_match "her smile and her heart" "" 6
    (by decide) (by decide) (by decide)
  exact h

/-- C2 counterexample: the text qqq contains no keyword of the training
taxonomy, yet the emotion assigner of simple_training.py labels it
wisdom rather than the sentinel general, refuting the claim for the
classifiers that build the training labels. -/
theorem no_keyword_sentinel_counterexample :
    (∀ e ∈ simpleEmotionKeywords,
      e.2.any (fun kw => strContains (lowerStr "qqq") kw) = false) ∧
    simpleAssignEmotion "qqq" = "wisdom" ∧ "wisdom" ≠ "general" := by decide

/-- C2 amended: on text and tags containing no taxonomy keyword, the
merge-script classifier assign_emotion does return the sentinel
general, but the training-label assigners default differently:
simple_training.py returns wisdom, and create_training_data of
train_quote_system.py returns the lowered stored emotion or wisdom —
never general. -/
theorem no_keyword_default_labels (s g eo : String)
    (h1 : ∀ e ∈ EMOTION_KEYWORDS,
      entryMatches e (lowerStr s) (lowerStr g) = false)
    (h2 : ∀ e ∈ simpleEmotionKeywords,
      e.2.any (fun kw => strContains (lowerStr s) kw) = false) :
    assign_emotion (PyVal.str s) (PyVal.str g) = "general" ∧
    simpleAssignEmotion s = "wisdom" ∧
    createTrainingLabel s eo ≠ "general" := by
  have hmat : matchedEmotions (lowerStr s) = [] := by
    unfold matchedEmotions
    refine List.filterMap_eq_nil_iff.2 ?_
    intro e he
    rw [h2 e he]
    rfl
  refine ⟨?_, ?_, ?_⟩
  · unfold assign_emotion
    rw [tags_lower]
    show classifyLowered (lowerStr s) (lowerStr g) = "general"
    unfold classifyLowered
    rw [List.find?_eq_none.2 (fun e he => by simp [h1 e he])]
  · unfold simpleAssignEmotion
    rw [hmat]
  · unfold createTrainingLabel
    rw [hmat]
    show (if lowerStr eo != "general" then lowerStr eo else "wisdom") ≠ "general"
    by_cases hq : (lowerStr eo != "general") = true
    · rw [if_pos hq]
      exact bne_iff_ne.1 hq
    · rw [if_neg hq]
      decide

/-- Witness for C2: the keyword-free text zzz gets general from
assign_emotion, wisdom from the simple-training assigner, and a
non-general label from the create_training_data assigner. -/
theorem no_keyword_default_labels_witness :
    assign_emotion (PyVal.str "zzz") (PyVal.str "") = "general" ∧
    simpleAssignEmotion "zzz" = "wisdom" ∧
    createTrainingLabel "zzz" "Motivation" ≠ "general" :=
  no_keyword_default_labels "zzz" "" "Motivation" (by decide) (by decide)

/-- C3 counterexample: the serving dataframe holds a single quote
labeled general; requesting emotion love leaves the matched subset
empty, and the method returns the empty list — it does not retry with
general, which would have returned that quote. -/
theorem emotion_filter_no_retry_counterexample :
    getEmotionBasedQuotes
      (some { hasAssignedCol := true,
              rows := [{ quote := "be here now", author := "A",
                         assignedEmotion := "general", emotion := "general" }] })
      "love" 5 = [] ∧
    getEmotionBasedQuotes
      (some { hasAssignedCol := true,
              rows := [{ quote := "be here now", author := "A",
                         assignedEmotion := "general", emotion := "general" }] })
      "general" 5 ≠ [] := by decide

/-- C3 amended: candidate selection keeps exactly the quotes whose
stored emotion column equals the classified label case-insensitively;
when that subset is empty, `_get_emotion_based_quotes` returns the
empty list for every label — there is no retry with general. -/
theorem emotion_filter_case_insensitive_no_retry (df : DataFrame)
    (emotion : String) (k : Nat) :
    (∀ r : Row,
      r ∈ df.rows.filter (fun r => lowerStr (rowLabel df r) == lowerStr emotion) ↔
        (r ∈ df.rows ∧ lowerStr (rowLabel df r) = lowerStr emotion)) ∧
    (df.rows.filter (fun r => lowerStr (rowLabel df r) == lowerStr emotion) = [] →
      getEmotionBasedQuotes (some df) emotion k = []) := by
  have hbr :
      (if df.hasAssignedCol then
        df.rows.filter (fun r => lowerStr r.assignedEmotion == lowerStr emotion)
      else
        df.rows.filter (fun r => lowerStr r.emotion == lowerStr emotion)) =
      df.rows.filter (fun r => lowerStr (rowLabel df r) == lowerStr emotion) := by
    by_cases h : df.hasAssignedCol = true
    · unfold rowLabel
      simp [h]
    · unfold rowLabel
      simp [h]
  constructor
  · intro r
    rw [List.mem_filter]
    constructor
    · rintro ⟨hr, hb⟩
      exact ⟨hr, by simpa using hb⟩
    · rintro ⟨hr, hb⟩
      exact ⟨hr, by simpa using hb⟩
  · intro hempty
    show (if (if df.hasAssignedCol then
        df.rows.filter (fun r => lowerStr r.assignedEmotion == lowerStr emotion)
      else
        df.rows.filter (fun r => lowerStr r.emotion == lowerStr emotion)).isEmpty
      then ([] : List RecQuote)
      else _) = []
    rw [hbr, hempty]
    rfl

/-- Witness for C3: a dataframe whose only row is labeled mindfulness
matched against the label anxiety — the case-insensitive filter is
empty and the method returns the empty list. -/
theorem emotion_filter_no_retry_witness :
    getEmotionBasedQuotes
      (some { hasAssignedCol := true,
              rows := [{ quote := "stay calm", author := "B",
                         assignedEmotion := "Mindfulness",
                         emotion := "Mindfulness" }] })
      "anxiety" 5 = [] :=
  (emotion_filter_case_insensitive_no_retry
    { hasAssignedCol := true,
      rows := [{ quote := "stay calm", author := "B",
                 assignedEmotion := "Mindfulness", emotion := "Mindfulness" }] }
    "anxiety" 5).2 (by decide)

/-- C4: the two word-count length filters are boundary-inclusive with
independent thresholds: the archive-merge filter keeps a quote of
exactly 65 words and rejects 66, and the serving-time filter (called
with its default threshold 50 at every site) keeps exactly 50 words and
rejects 51; membership in `_filter_quotes_by_length` output is exactly
the keep-condition. -/
theorem length_filter_boundary (r : SrcRow) (row : Row) (rows : List Row) :
    (word_count r.quote = 65 → archiveLengthOk r = true) ∧
    (word_count r.quote = 66 → archiveLengthOk r = false) ∧
    (word_count (some row.quote) = 50 → servingLengthOk 50 row = true) ∧
    (word_count (some row.quote) = 51 → servingLengthOk 50 row = false) ∧
    (row ∈ filterQuotesByLength rows 50 ↔
      (row ∈ rows ∧ servingLengthOk 50 row = true)) := by
  refine ⟨?_, ?_, ?_, ?_, ?_⟩
  · intro h; unfold archiveLengthOk; rw [h]; rfl
  · intro h; unfold archiveLengthOk; rw [h]; rfl
  · intro h; unfold servingLengthOk; rw [h]; rfl
  · intro h; unfold servingLengthOk; rw [h]; rfl
  · unfold filterQuotesByLength
    exact List.mem_filter

/-- Witness for C4 at quotes of exactly 65, 66, 50 and 51 words. -/
theorem length_filter_boundary_witness :
    archiveLengthOk
      { quote := some (mkWords 65), author := "A", tags := some "" } = true ∧
    archiveLengthOk
      { quote := some (mkWords 66), author := "A", tags := some "" } = false ∧
    servingLengthOk 50
      { quote := mkWords 50, author := "A", assignedEmotion := "hope",
        emotion := "hope" } = true ∧
    servingLengthOk 50
      { quote := mkWords 51, author := "A", assignedEmotion := "hope",
        emotion := "hope" } = false :=
  ⟨(length_filter_boundary
      { quote := some (mkWords 65), author := "A", tags := some "" }
      { quote := "q", author := "A", assignedEmotion := "hope", emotion := "hope" }
      []).1 (by decide),
   (length_filter_boundary
      { quote := some (mkWords 66), author := "A", tags := some "" }
      { quote := "q", author := "A", assignedEmotion := "hope", emotion := "hope" }
      []).2.1 (by decide),
   (length_filter_boundary
      { quote := some "q", author := "A", tags := some "" }
      { quote := mkWords 50, author := "A", assignedEmotion := "hope",
        emotion := "hope" } []).2.2.1 (by decide),
   (length_filter_boundary
      { quote := some "q", author := "A", tags := some "" }
      { quote := mkWords 51, author := "A", assignedEmotion := "hope",
        emotion := "hope" } []).2.2.2.1 (by decide)⟩

/-- C5: the selector returns all candidates unchanged, in the order
received, when at most k are present; otherwise it returns exactly k
entries forming a sub-permutation of the candidate list — that is, k
distinct positions drawn without replacement, so a duplicate-free
candidate list yields a duplicate-free selection.  The selection is a
pure function of the candidate list under the fixed seed, so two runs
on the same candidates are identical by construction. -/
theorem select_quotes_spec {α : Type} (c : List α) (k : Nat) :
    (c.length ≤ k → selectQuotes c k = c) ∧
    (k < c.length →
      (selectQuotes c k).length = k ∧
      List.Subperm (selectQuotes c k) c ∧
      (c.Nodup → (selectQuotes c k).Nodup)) := by
  constructor
  · intro h
    unfold selectQuotes
    rw [if_pos h]
  · intro h
    have hnot : ¬ c.length ≤ k := Nat.not_le.2 h
    have hsel : selectQuotes c k = sampleGo k 42 c := by
      unfold selectQuotes
      rw [if_neg hnot]
    refine ⟨?_, ?_, ?_⟩
    · rw [hsel, sampleGo_length]
      exact Nat.min_eq_left (Nat.le_of_lt h)
    · rw [hsel]
      exact sampleGo_subperm k 42 c
    · intro hnd
      rw [hsel]
      rcases sampleGo_subperm k 42 c with ⟨t, hp, hs⟩
      exact hp.nodup (hnd.sublist hs)

/-- Witness for C5: 3 candidates with k equal to 5 are all returned in
order; 10 candidates yield exactly 5 with no duplicates. -/
theorem select_quotes_spec_witness :
    selectQuotes [1, 2, 3] 5 = [1, 2, 3] ∧
    (selectQuotes [1, 2, 3, 4, 5, 6, 7, 8, 9, 10] 5).length = 5 ∧
    (selectQuotes [1, 2, 3, 4, 5, 6, 7, 8, 9, 10] 5).Nodup :=
  ⟨(select_quotes_spec [1, 2, 3] 5).1 (by decide),
   ((select_quotes_spec [1, 2, 3, 4, 5, 6, 7, 8, 9, 10] 5).2 (by decide)).1,
   ((select_quotes_spec [1, 2, 3, 4, 5, 6, 7, 8, 9, 10] 5).2 (by decide)).2.2
     (by decide)⟩

/-- C6 counterexample: a record whose quote is a single space survives
the whole archive pipeline — only missing cells are dropped — so the
output corpus contains a record whose text strips to the empty string,
refuting the non-empty-after-trimming part of the claim. -/
theorem corpus_trim_counterexample :
    buildArchiveCorpus [{ quote := some " ", author := "A", tags := some "" }] =
      [{ quote := some " ", author := "A", tags := some "",
         emotion := "general" }] ∧
    pyStrip " " = "" := by decide

/-- C6 amended: every record of the built corpus has a present
(non-missing) quote cell, no two output records share a quote text, and
among input duplicates the first occurrence in concatenation order is
the one kept (its author and tags survive); the pipeline does not
guarantee non-empty text after trimming, since only missing cells are
dropped (see the counterexample). -/
theorem corpus_nodup_first_wins (rows : List SrcRow) :
    (∀ r ∈ buildArchiveCorpus rows, r.quote.isSome = true) ∧
    ((buildArchiveCorpus rows).map (fun r => r.quote)).Nodup ∧
    (∀ r ∈ buildArchiveCorpus rows,
      (rows.filter (fun s => s.quote.isSome)).find?
          (fun s => s.quote == r.quote) =
        some { quote := r.quote, author := r.author, tags := r.tags }) := by
  have hb : buildArchiveCorpus rows =
      ((dedupBy (fun r => r.quote)
          (rows.filter (fun r => r.quote.isSome))).filter
        archiveLengthOk).map (fun r =>
        { quote := r.quote, author := r.author, tags := r.tags,
          emotion := assign_emotion (cellPy r.quote) (cellPy r.tags) }) := rfl
  refine ⟨?_, ?_, ?_⟩
  · intro r hr
    rw [hb] at hr
    rcases List.mem_map.1 hr with ⟨d, hd, rfl⟩
    have hd2 : d ∈ dedupBy (fun r => r.quote)
        (rows.filter (fun r => r.quote.isSome)) := (List.mem_filter.1 hd).1
    unfold dedupBy at hd2
    have hd3 : d ∈ rows.filter (fun r => r.quote.isSome) :=
      dedupByGo_subset (fun r => r.quote)
        (rows.filter (fun r => r.quote.isSome)) [] d hd2
    exact (List.mem_filter.1 hd3).2
  · rw [hb, List.map_map]
    have h1 : ((dedupBy (fun r => r.quote)
        (rows.filter (fun r => r.quote.isSome))).map (fun r => r.quote)).Nodup :=
      dedupByGo_keys_nodup (fun r => r.quote)
        (rows.filter (fun r => r.quote.isSome)) []
    exact h1.sublist ((List.filter_sublist _).map _)
  · intro r hr
    rw [hb] at hr
    rcases List.mem_map.1 hr with ⟨d, hd, rfl⟩
    have hd2 : d ∈ dedupBy (fun r => r.quote)
        (rows.filter (fun r => r.quote.isSome)) := (List.mem_filter.1 hd).1
    unfold dedupBy at hd2
    exact dedupByGo_first (fun r => r.quote)
      (rows.filter (fun r => r.quote.isSome)) [] d hd2

/-- Witness for C6: two input rows share the quote text; the corpus
keys are duplicate-free and the first-occurrence row (author A) is the
one found. -/
theorem corpus_nodup_first_wins_witness :
    ((buildArchiveCorpus rowsPair).map (fun r => r.quote)).Nodup ∧
    (rowsPair.filter (fun s => s.quote.isSome)).find?
        (fun s => s.quote == (some "only" : Option String)) =
      some { quote := some "only", author := "A", tags := some "" } :=
  ⟨(corpus_nodup_first_wins rowsPair).2.1,
   (corpus_nodup_first_wins rowsPair).2.2
     { quote := some "only", author := "A", tags := some "",
       emotion := "general" } (by decide)⟩

/-- C7: a POST /recommendations request with a JSON body whose text
field is missing or whose text strips to empty receives a 400 reply
carrying an error field and status error, and the reply records no
recommendation computation — the handler returns before the engine is
consulted. -/
theorem recommendations_empty_text_400 (e : Engine) (textField : Option String)
    (h : pyStrip (textField.getD "") = "") :
    recommendationsRoute e (some textField) =
      { code := 400, hasErrorField := true, status := "error",
        emotionDetected := Option.none, recommended := Option.none } := by
  simp only [recommendationsRoute]
  rw [h]
  rfl

/-- Witness for C7: a whitespace-only text and a body without the text
field both yield the 400 error reply. -/
theorem recommendations_empty_text_400_witness :
    recommendationsRoute engineOffline (some (some "   ")) =
      { code := 400, hasErrorField := true, status := "error",
        emotionDetected := Option.none, recommended := Option.none } ∧
    recommendationsRoute engineOffline (some Option.none) =
      { code := 400, hasErrorField := true, status := "error",
        emotionDetected := Option.none, recommended := Option.none } :=
  ⟨recommendations_empty_text_400 engineOffline (some "   ") (by decide),
   recommendations_empty_text_400 engineOffline Option.none (by decide)⟩

/-- C8 counterexample: a non-string input is matched against its str()
representation, not coerced to the empty string: the Python list
holding the single string love stringifies with that keyword inside and
classifies as love, while the empty string classifies as general. -/
theorem str_coercion_counterexample :
    assign_emotion (PyVal.strList ["love"]) PyVal.none = "love" ∧
    assign_emotion (PyVal.str "") PyVal.none = "general" := by decide

/-- C8 amended: the classifier is total, always returning either the
sentinel general or a declared taxonomy label — it never raises; the
absent input None is coerced by str() to the keyword-free text None and
therefore classifies exactly like the empty string, but the coercion
goes through str() rather than the empty string, so other non-string
inputs may classify differently (see the counterexample). -/
theorem assign_emotion_total_none_like_empty (v tags : PyVal) :
    (assign_emotion v tags = "general" ∨
      assign_emotion v tags ∈ EMOTION_KEYWORDS.map Prod.fst) ∧
    assign_emotion PyVal.none tags = assign_emotion (PyVal.str "") tags := by
  constructor
  · unfold assign_emotion classifyLowered
    cases hf : EMOTION_KEYWORDS.find? (fun e =>
        entryMatches e (lowerStr (pyStr v))
          (if pyTruthy tags then lowerStr (pyStr tags) else "")) with
    | none => exact Or.inl rfl
    | some e =>
      exact Or.inr (List.mem_map_of_mem Prod.fst (List.mem_of_find?_eq_some hf))
  · have h1 : lowerStr (pyStr PyVal.none) = "none" := by decide
    have h2 : lowerStr (pyStr (PyVal.str "")) = "" := rfl
    unfold assign_emotion
    rw [h1, h2]
    exact classifyLowered_none_eq _

/-- C9: drop_duplicates on the quote column is idempotent — applied to
a row list whose quote values are already pairwise distinct it returns
the list unchanged. -/
theorem dedup_idempotent (l : List SrcRow)
    (h : (l.map (fun r => r.quote)).Nodup) :
    dedupBy (fun r => r.quote) l = l := by
  unfold dedupBy
  exact dedupByGo_of_nodup (fun r => r.quote) l [] (fun x _ => rfl) h

/-- Witness for C9: a two-row list with distinct quotes is returned
unchanged by the de-duplication. -/
theorem dedup_idempotent_witness :
    dedupBy (fun r => r.quote)
      ([{ quote := some "p", author := "A", tags := some "" },
        { quote := some "q", author := "B", tags := some "" }] : List SrcRow) =
      [{ quote := some "p", author := "A", tags := some "" },
       { quote := some "q", author := "B", tags := some "" }] :=
  dedup_idempotent
    [{ quote := some "p", author := "A", tags := some "" },
     { quote := some "q", author := "B", tags := some "" }] (by decide)

/-- C10: with the trained models not loaded, get_recommendations
returns the hardcoded fallback list truncated to the requested count;
that list has exactly 2 entries, so the result length is min k 2 for
every k and in particular exactly 2 for the default request count 5,
whatever the input text. -/
theorem fallback_two_quotes (e : Engine) (input : String) (k : Nat)
    (h : e.isLoaded = false) :
    engineGetRecommendations e input k = defaultQuotes.take k ∧
    defaultQuotes.length = 2 ∧
    (engineGetRecommendations e input k).length = min k 2 ∧
    (engineGetRecommendations e input 5).length = 2 := by
  have hmain : ∀ m, engineGetRecommendations e input m = defaultQuotes.take m := by
    intro m
    unfold engineGetRecommendations
    rw [h]
    rfl
  refine ⟨hmain k, rfl, ?_, ?_⟩
  · rw [hmain k, List.length_take]
    rfl
  · rw [hmain 5]
    rfl

/-- Witness for C10: the offline engine yields the truncated fallback
list for k equal to 1 and exactly two results for the default count. -/
theorem fallback_two_quotes_witness :
    engineGetRecommendations engineOffline "I am sad" 1 = defaultQuotes.take 1 ∧
    (engineGetRecommendations engineOffline "I am sad" 5).length = 2 :=
  ⟨(fallback_two_quotes engineOffline "I am sad" 1 rfl).1,
   (fallback_two_quotes engineOffline "I am sad" 5 rfl).2.2.2⟩
